import Mathlib

/-!
Shallow embedding of the FastAPI Gemini image-captioning service
(src/main.py).  The service has one handler, caption_image, that
validates the declared content type of an upload, decodes the bytes
into an image, calls an external generation model with a fixed prompt,
and shapes the returned text (or an exception) into an HTTP response.
The external decode step (PIL Image.open) and the external generation
call are modelled as oracle functions passed to the handler; the
handler also returns the trace of generation calls it made, so that
claims about the number of external invocations and about the prompt
passed to them can be stated.
-/

namespace GeminiCaption

/-- An uploaded file as the handler sees it: the declared content type
(absent when the multipart request did not supply one, matching the
FastAPI UploadFile field of type str or None), the original filename,
and the raw bytes of the upload. -/
structure UploadFile where
  content_type : Option String
  filename : String
  bytes : List Nat
deriving DecidableEq, Repr

/-- The in-memory decoded image produced by PIL Image.open, carrying
the pixel data derived from the uploaded bytes. -/
structure PILImage where
  data : List Nat
deriving DecidableEq, Repr

/-- Outcome of the external model.generate_content call followed by
the access to response.text: either a returned text, a provider error
(genai.APIError) with its message, or any other exception with its
message (transport failures, blocked responses, and so on). -/
inductive GenResult where
  | text (t : String)
  | apiError (msg : String)
  | exn (msg : String)
deriving DecidableEq, Repr

/-- One recorded invocation of the external generation call: the
instruction text and the image that were passed to it. -/
structure GenCall where
  prompt : String
  image : PILImage
deriving DecidableEq, Repr

/-- What one request to the handler ends in: a 200 JSON body with
filename and caption, a raised HTTPException carrying a status and a
detail message (converted by the framework into a JSON error body),
or an exception that escapes the handler uncaught. -/
inductive HandlerResponse where
  | json200 (filename caption : String)
  | httpException (status : Nat) (detail : String)
  | uncaught (msg : String)
deriving DecidableEq, Repr

/-- The model handle constructed at startup by genai.GenerativeModel. -/
structure GenerativeModel where
  name : String
deriving DecidableEq, Repr

/-- The model version named in the source. -/
def MODEL_NAME : String := "gemini-2.5-flash-preview-04-17"

/-- The fixed instruction text from src/main.py, reproduced verbatim:
the Python triple-quoted literal opens and closes with a newline. -/
def IMAGE_CAPTIONING_PROMPT : String :=
  "\nDescribe this image in detail. Focus on the main subjects, actions, setting, colors, and any discernible emotions or atmosphere.\nProvide a concise yet comprehensive caption, suitable for accessibility purposes or a brief summary.\nMake sure to include any notable features or context that would help someone understand the image without seeing it.\nTranslate to bahasa indonesia if necessary.\n"

/-- Python str.startswith, modelled over the character list of the
string: true when the second string is a leading segment of the first. -/
def pyStartsWith (s pre : String) : Bool :=
  pre.data.isPrefixOf s.data

/-- The characters stripped by Python str.strip with no argument: the
characters on which str.isspace is true.  Besides the six ASCII
whitespace characters these are the file, group, record and unit
separators U+001C to U+001F, next line U+0085, no-break space U+00A0,
ogham space mark U+1680, the en/em family U+2000 to U+200A, line
separator U+2028, paragraph separator U+2029, narrow no-break space
U+202F, medium mathematical space U+205F, and ideographic space
U+3000. -/
def pyWhitespace : List Char :=
  [' ', '\t', '\n', '\r', '\x0b', '\x0c',
   '\x1c', '\x1d', '\x1e', '\x1f',
   '\u0085', '\u00a0', '\u1680',
   '\u2000', '\u2001', '\u2002', '\u2003', '\u2004',
   '\u2005', '\u2006', '\u2007', '\u2008', '\u2009', '\u200a',
   '\u2028', '\u2029', '\u202f', '\u205f', '\u3000']

/-- Python str.isspace on one character, as used by str.strip. -/
def pyIsSpace (c : Char) : Bool :=
  pyWhitespace.contains c

/-- Python str.strip with no argument: remove whitespace from both ends
of the string. -/
def pyStrip (s : String) : String :=
  String.mk (((s.data.dropWhile pyIsSpace).reverse.dropWhile pyIsSpace).reverse)

/-- Python truthiness of an optional string: None and the empty string
are falsy, every other string is truthy.  This is the test performed by
the line reading if not GEMINI_API_KEY in src/main.py. -/
def pyStrFalsy : Option String → Bool
  | none => true
  | some s => s.data.isEmpty

/-- Module-level startup of src/main.py: read GOOGLE_API_KEY from the
environment, raise ValueError when it is unset or empty, then build the
model handle, turning a construction failure into a RuntimeError.  The
environment and the handle constructor are oracle parameters; an error
value means the process fails before the app serves any traffic. -/
def startup (env : String → Option String)
    (mkModel : String → Except String GenerativeModel) :
    Except String GenerativeModel :=
  let GEMINI_API_KEY := env "GOOGLE_API_KEY"
  if pyStrFalsy GEMINI_API_KEY then
    Except.error "GOOGLE_API_KEY not found in environment variables. Please set it in a .env file."
  else
    match mkModel MODEL_NAME with
    | Except.error e =>
        Except.error ("Failed to initialize Gemini model. Make sure the model is available and your API key is correct. Error: " ++ e)
    | Except.ok m => Except.ok m

/-- The static body returned by the root endpoint of src/main.py. -/
def read_root : List (String × String) :=
  [("message", "Welcome to the Gemini Image Captioning API! Visit /docs for more info.")]

/-- The caption_image handler of src/main.py.  The decode oracle stands
for PIL Image.open over the uploaded bytes; the gen oracle stands for
model.generate_content followed by response.text.  The second component
of the result is the trace of generation calls made during the request.
When content_type is None, the attribute access None.startswith raises
an AttributeError before the try block, escaping the handler uncaught. -/
def caption_image (decode : List Nat → Except String PILImage)
    (gen : String → PILImage → GenResult)
    (file : UploadFile) : HandlerResponse × List GenCall :=
  match file.content_type with
  | none =>
      (HandlerResponse.uncaught "AttributeError: NoneType object has no attribute startswith", [])
  | some ct =>
      if pyStartsWith ct "image/" = false then
        (HandlerResponse.httpException 400 "Invalid file type. Please upload an image.", [])
      else
        match decode file.bytes with
        | Except.error e =>
            (HandlerResponse.httpException 500 ("An unexpected error occurred: " ++ e), [])
        | Except.ok image =>
            match gen IMAGE_CAPTIONING_PROMPT image with
            | GenResult.text t =>
                let caption := pyStrip t
                let caption := if caption.data.isEmpty then "No caption could be generated for this image." else caption
                (HandlerResponse.json200 file.filename caption, [⟨IMAGE_CAPTIONING_PROMPT, image⟩])
            | GenResult.apiError e =>
                (HandlerResponse.httpException 500 ("Gemini API Error: " ++ e), [⟨IMAGE_CAPTIONING_PROMPT, image⟩])
            | GenResult.exn e =>
                (HandlerResponse.httpException 500 ("An unexpected error occurred: " ++ e), [⟨IMAGE_CAPTIONING_PROMPT, image⟩])

/-- Holds exactly when a handler outcome is one of the three response
forms the spec allows: a 200 success body, a 400 error body, or a 500
error body.  An uncaught exception is none of them. -/
def handlerOutcomeOk : HandlerResponse → Bool
  | HandlerResponse.json200 _ _ => true
  | HandlerResponse.httpException s _ => s == 400 || s == 500
  | HandlerResponse.uncaught _ => false

/-- A decode oracle that always succeeds, wrapping the bytes. -/
def decodeOk : List Nat → Except String PILImage :=
  fun bs => Except.ok ⟨bs⟩

/-- A decode oracle that always fails, as PIL does on malformed bytes. -/
def decodeFail : List Nat → Except String PILImage :=
  fun _ => Except.error "cannot identify image file"

/-- A generation oracle returning a fixed text. -/
def genText (t : String) : String → PILImage → GenResult :=
  fun _ _ => GenResult.text t

/-- A generation oracle raising a provider error with a fixed message. -/
def genApiError (m : String) : String → PILImage → GenResult :=
  fun _ _ => GenResult.apiError m

/-- An environment with no variables set. -/
def envEmpty : String → Option String :=
  fun _ => none

/-- A model constructor that always succeeds. -/
def mkModelOk : String → Except String GenerativeModel :=
  fun n => Except.ok ⟨n⟩

/-- Claim C1: for every upload whose declared content type does not
start with the image category, the handler returns status 400 with the
descriptive message, and the trace of external generation calls is
empty. -/
theorem non_image_content_type_gives_400_and_no_gen_call
    (decode : List Nat → Except String PILImage)
    (gen : String → PILImage → GenResult)
    (file : UploadFile) (ct : String)
    (hct : file.content_type = some ct)
    (h : pyStartsWith ct "image/" = false) :
    caption_image decode gen file =
      (HandlerResponse.httpException 400 "Invalid file type. Please upload an image.", []) := by
  unfold caption_image
  rw [hct]
  simp [h]

/-- Witness for C1: a text upload with content type text/plain gets the
400 response and the external collaborator records zero invocations. -/
theorem non_image_content_type_gives_400_and_no_gen_call_witness :
    pyStartsWith "text/plain" "image/" = false ∧
    caption_image decodeOk (genText "x") ⟨some "text/plain", "note.txt", [1, 2, 3]⟩ =
      (HandlerResponse.httpException 400 "Invalid file type. Please upload an image.", []) :=
  ⟨by decide,
   non_image_content_type_gives_400_and_no_gen_call decodeOk (genText "x")
     ⟨some "text/plain", "note.txt", [1, 2, 3]⟩ "text/plain" rfl (by decide)⟩

/-- Claim C2: for an image upload whose decode succeeds and whose
generation call returns text that is non-empty after trimming, the
handler returns 200 with the caption equal to the trimmed text and the
filename equal to the original filename of the upload. -/
theorem success_nonempty_caption_echoes_trimmed_text
    (decode : List Nat → Except String PILImage)
    (gen : String → PILImage → GenResult)
    (file : UploadFile) (ct : String)
    (hct : file.content_type = some ct)
    (h : pyStartsWith ct "image/" = true)
    (img : PILImage) (hdec : decode file.bytes = Except.ok img)
    (t : String) (hgen : gen IMAGE_CAPTIONING_PROMPT img = GenResult.text t)
    (hne : (pyStrip t).data.isEmpty = false) :
    (caption_image decode gen file).1 = HandlerResponse.json200 file.filename (pyStrip t) := by
  unfold caption_image
  rw [hct]
  simp [h, hdec, hgen, hne]

/-- Witness for C2: a PNG upload with generation text that trims to a
non-empty caption is echoed back with the original filename. -/
theorem success_nonempty_caption_echoes_trimmed_text_witness :
    (pyStrip "\u00a0 A small red square. \u00a0").data.isEmpty = false ∧
    (caption_image decodeOk (genText "\u00a0 A small red square. \u00a0")
        ⟨some "image/png", "test.png", [7]⟩).1 =
      HandlerResponse.json200 "test.png" (pyStrip "\u00a0 A small red square. \u00a0") :=
  ⟨by decide,
   success_nonempty_caption_echoes_trimmed_text decodeOk (genText "\u00a0 A small red square. \u00a0")
     ⟨some "image/png", "test.png", [7]⟩ "image/png" rfl (by decide)
     ⟨[7]⟩ rfl "\u00a0 A small red square. \u00a0" rfl (by decide)⟩

/-- Claim C3: for an image upload whose generation call returns text
that is empty after trimming, the handler returns 200 with the caption
equal to the fixed fallback sentence. -/
theorem empty_trimmed_caption_gives_fallback
    (decode : List Nat → Except String PILImage)
    (gen : String → PILImage → GenResult)
    (file : UploadFile) (ct : String)
    (hct : file.content_type = some ct)
    (h : pyStartsWith ct "image/" = true)
    (img : PILImage) (hdec : decode file.bytes = Except.ok img)
    (t : String) (hgen : gen IMAGE_CAPTIONING_PROMPT img = GenResult.text t)
    (he : (pyStrip t).data.isEmpty = true) :
    (caption_image decode gen file).1 =
      HandlerResponse.json200 file.filename "No caption could be generated for this image." := by
  unfold caption_image
  rw [hct]
  simp [h, hdec, hgen, he]

/-- Witness for C3: a generation result of pure whitespace yields the
fallback sentence as the caption. -/
theorem empty_trimmed_caption_gives_fallback_witness :
    (pyStrip "\u00a0 \n ").data.isEmpty = true ∧
    (caption_image decodeOk (genText "\u00a0 \n ") ⟨some "image/jpeg", "b.jpg", []⟩).1 =
      HandlerResponse.json200 "b.jpg" "No caption could be generated for this image." :=
  ⟨by decide,
   empty_trimmed_caption_gives_fallback decodeOk (genText "\u00a0 \n ")
     ⟨some "image/jpeg", "b.jpg", []⟩ "image/jpeg" rfl (by decide)
     ⟨[]⟩ rfl "\u00a0 \n " rfl (by decide)⟩

/-- Claim C4: for an image upload on which the external collaborator
raises a provider error, the handler returns 500 with a detail that
names the provider and carries the provider error message text. -/
theorem provider_error_gives_500_with_provider_detail
    (decode : List Nat → Except String PILImage)
    (gen : String → PILImage → GenResult)
    (file : UploadFile) (ct : String)
    (hct : file.content_type = some ct)
    (h : pyStartsWith ct "image/" = true)
    (img : PILImage) (hdec : decode file.bytes = Except.ok img)
    (m : String) (hgen : gen IMAGE_CAPTIONING_PROMPT img = GenResult.apiError m) :
    (caption_image decode gen file).1 =
      HandlerResponse.httpException 500 ("Gemini API Error: " ++ m) := by
  unfold caption_image
  rw [hct]
  simp [h, hdec, hgen]

/-- Witness for C4: a provider quota error is mapped to a 500 whose
detail message contains the provider message after the provider tag. -/
theorem provider_error_gives_500_with_provider_detail_witness :
    pyStartsWith "image/png" "image/" = true ∧
    (caption_image decodeOk (genApiError "quota exceeded")
        ⟨some "image/png", "c.png", [0]⟩).1 =
      HandlerResponse.httpException 500 ("Gemini API Error: " ++ "quota exceeded") :=
  ⟨by decide,
   provider_error_gives_500_with_provider_detail decodeOk (genApiError "quota exceeded")
     ⟨some "image/png", "c.png", [0]⟩ "image/png" rfl (by decide)
     ⟨[0]⟩ rfl "quota exceeded" rfl⟩

/-- Claim C5, counterexample: an upload that carries no declared
content type makes the attribute access on None raise before the try
block, so the handler ends in an uncaught exception and not in any of
the three allowed response forms (200, 400 body, 500 body). -/
theorem handler_total_counterexample :
    handlerOutcomeOk (caption_image decodeOk (genText "x") ⟨none, "a.png", [1]⟩).1 = false ∧
    (caption_image decodeOk (genText "x") ⟨none, "a.png", [1]⟩).1 =
      HandlerResponse.uncaught "AttributeError: NoneType object has no attribute startswith" :=
  ⟨rfl, rfl⟩

/-- Claim C5 as amended: for every upload that carries a declared
content type, and every outcome of the decode step and of the external
call, the handler terminates with exactly one of a 200 response, a 400
error body, or a 500 error body; no error escapes the handler. -/
theorem handler_total_with_declared_content_type
    (decode : List Nat → Except String PILImage)
    (gen : String → PILImage → GenResult)
    (file : UploadFile) (ct : String)
    (hct : file.content_type = some ct) :
    handlerOutcomeOk (caption_image decode gen file).1 = true := by
  unfold caption_image
  rw [hct]
  cases hsw : pyStartsWith ct "image/" with
  | false => simp [hsw, handlerOutcomeOk]
  | true =>
    simp only [hsw]
    cases hdec : decode file.bytes with
    | error e => simp [handlerOutcomeOk]
    | ok img =>
      cases hgen : gen IMAGE_CAPTIONING_PROMPT img <;>
        simp [hgen, handlerOutcomeOk]

/-- Witness for the amended C5: a declared non-image content type still
lands in one of the three allowed response forms. -/
theorem handler_total_with_declared_content_type_witness :
    (UploadFile.mk (some "text/plain") "a.txt" []).content_type = some "text/plain" ∧
    handlerOutcomeOk (caption_image decodeFail (genText "x")
      ⟨some "text/plain", "a.txt", []⟩).1 = true :=
  ⟨rfl,
   handler_total_with_declared_content_type decodeFail (genText "x")
     ⟨some "text/plain", "a.txt", []⟩ "text/plain" rfl⟩

/-- Claim C6: for an image upload whose bytes fail to decode, the
handler returns status 500 through the generic error path, with the
generic message carrying the exception details, and not a 400. -/
theorem decode_failure_gives_generic_500
    (decode : List Nat → Except String PILImage)
    (gen : String → PILImage → GenResult)
    (file : UploadFile) (ct : String)
    (hct : file.content_type = some ct)
    (h : pyStartsWith ct "image/" = true)
    (e : String) (hdec : decode file.bytes = Except.error e) :
    (caption_image decode gen file).1 =
      HandlerResponse.httpException 500 ("An unexpected error occurred: " ++ e) := by
  unfold caption_image
  rw [hct]
  simp [h, hdec]

/-- Witness for C6: malformed bytes declared as image/png get the 500
generic-error response, not a 400. -/
theorem decode_failure_gives_generic_500_witness :
    pyStartsWith "image/png" "image/" = true ∧
    (caption_image decodeFail (genText "x") ⟨some "image/png", "bad.png", [9]⟩).1 =
      HandlerResponse.httpException 500
        ("An unexpected error occurred: " ++ "cannot identify image file") :=
  ⟨by decide,
   decode_failure_gives_generic_500 decodeFail (genText "x")
     ⟨some "image/png", "bad.png", [9]⟩ "image/png" rfl (by decide)
     "cannot identify image file" rfl⟩

/-- Claim C7: when the GOOGLE_API_KEY environment variable is unset or
empty, startup fails with the fatal configuration diagnostic, before
any model handle exists to serve traffic. -/
theorem missing_api_key_is_startup_fatal
    (env : String → Option String)
    (mkModel : String → Except String GenerativeModel)
    (h : env "GOOGLE_API_KEY" = none ∨ env "GOOGLE_API_KEY" = some "") :
    startup env mkModel =
      Except.error "GOOGLE_API_KEY not found in environment variables. Please set it in a .env file." := by
  unfold startup
  rcases h with h | h <;> simp [h, pyStrFalsy]

/-- Witness for C7: the empty environment makes startup fail with the
configuration diagnostic. -/
theorem missing_api_key_is_startup_fatal_witness :
    (envEmpty "GOOGLE_API_KEY" = none ∨ envEmpty "GOOGLE_API_KEY" = some "") ∧
    startup envEmpty mkModelOk =
      Except.error "GOOGLE_API_KEY not found in environment variables. Please set it in a .env file." :=
  ⟨Or.inl rfl, missing_api_key_is_startup_fatal envEmpty mkModelOk (Or.inl rfl)⟩

/-- Claim C8: every generation call the handler makes, for every
upload, every decode behaviour and every generation behaviour, passes
exactly the fixed hard-coded prompt as its instruction text. -/
theorem every_gen_call_uses_the_fixed_prompt
    (decode : List Nat → Except String PILImage)
    (gen : String → PILImage → GenResult)
    (file : UploadFile) :
    ((caption_image decode gen file).2).all
      (fun c => c.prompt == IMAGE_CAPTIONING_PROMPT) = true := by
  unfold caption_image
  rcases file with ⟨ct?, fn, bs⟩
  cases ct? with
  | none => rfl
  | some ct =>
    cases hsw : pyStartsWith ct "image/" with
    | false => simp [hsw]
    | true =>
      simp only [hsw]
      cases hdec : decode bs with
      | error e => simp
      | ok img =>
        cases hgen : gen IMAGE_CAPTIONING_PROMPT img <;> simp [hgen]

/-- Claim C9: when the upload declares no content type, the check on
the None content type raises outside the try block: the handler ends in
an uncaught exception, and in particular does not produce the 400
invalid-file-type response. -/
theorem absent_content_type_escapes_without_400
    (decode : List Nat → Except String PILImage)
    (gen : String → PILImage → GenResult)
    (file : UploadFile)
    (h : file.content_type = none) :
    caption_image decode gen file =
      (HandlerResponse.uncaught "AttributeError: NoneType object has no attribute startswith", []) ∧
    (caption_image decode gen file).1 ≠
      HandlerResponse.httpException 400 "Invalid file type. Please upload an image." := by
  unfold caption_image
  rw [h]
  exact ⟨rfl, by simp⟩

/-- Witness for C9: a concrete upload with no declared content type
ends in the uncaught attribute error rather than the 400 response. -/
theorem absent_content_type_escapes_without_400_witness :
    (UploadFile.mk none "x.bin" [5]).content_type = none ∧
    (caption_image decodeOk (genText "x") ⟨none, "x.bin", [5]⟩ =
      (HandlerResponse.uncaught "AttributeError: NoneType object has no attribute startswith", []) ∧
    (caption_image decodeOk (genText "x") ⟨none, "x.bin", [5]⟩).1 ≠
      HandlerResponse.httpException 400 "Invalid file type. Please upload an image.") :=
  ⟨rfl,
   absent_content_type_escapes_without_400 decodeOk (genText "x") ⟨none, "x.bin", [5]⟩ rfl⟩

/-- Claim C10: the handler is deterministic in its inputs: two uploads
that agree on content type, filename and bytes, handled with the same
decode behaviour and the same external generation behaviour, produce
identical responses and identical call traces. -/
theorem handler_deterministic
    (decode : List Nat → Except String PILImage)
    (gen : String → PILImage → GenResult)
    (f1 f2 : UploadFile)
    (h1 : f1.content_type = f2.content_type)
    (h2 : f1.filename = f2.filename)
    (h3 : f1.bytes = f2.bytes) :
    caption_image decode gen f1 = caption_image decode gen f2 := by
  cases f1
  cases f2
  simp_all

/-- Witness for C10: two identical PNG uploads produce the same
response. -/
theorem handler_deterministic_witness :
    (UploadFile.mk (some "image/png") "a.png" [1]).content_type =
      (UploadFile.mk (some "image/png") "a.png" [1]).content_type ∧
    caption_image decodeOk (genText "t") ⟨some "image/png", "a.png", [1]⟩ =
      caption_image decodeOk (genText "t") ⟨some "image/png", "a.png", [1]⟩ :=
  ⟨rfl,
   handler_deterministic decodeOk (genText "t")
     ⟨some "image/png", "a.png", [1]⟩ ⟨some "image/png", "a.png", [1]⟩ rfl rfl rfl⟩

end GeminiCaption
